import Mathlib

/-!
Verification of `spotdl/parsers/query_parser.py` (query dispatch and
cross-source reconciliation).

Strings are modelled as `List Char`.  Python integers are `Int`.  Calls to
external collaborator modules (`song_gatherer`, `metadata_provider`,
`ytm_provider`, `provider_utils`, the `SongObject` class and the filesystem
probe) are modelled as fields of a `Collaborators` record: each fallible call
returns `Except PyError _`, a raised exception being `Except.error`.
`print` output that the analysed properties refer to (the malformed-request
report, the empty-candidate report, the mismatch warning, the caught-search-
error report) is modelled as a list of structured `LogEvent`s returned next
to the value; purely decorative prints are elided.  Configuration values that
are only passed through to collaborators and never inspected by the parser
(`output_format`, `generate_m3u`, `threads`) are elided from the collaborator
signatures; the two flags the dispatch logic does distinguish
(`use_youtube`, `skip_youtube`) are kept.
-/

/-- The whitespace characters stripped by Python's `str.split()` (ASCII range,
as exercised by the parser). -/
def isPyWs (c : Char) : Bool :=
  c == ' ' || c == '\t' || c == '\n' || c == '\x0d' || c == '\x0b' || c == '\x0c'

/-- Model of `"".join(a.split())`: remove all whitespace from a string. -/
def stripWs (s : List Char) : List Char := s.filter (fun c => !isPyWs c)

/-- Model of `compute_diff` from `get_youtube_meta_playlist` (query_parser.py:180-188):
strip whitespace from both strings, count character frequencies
(`defaultdict(int)`, so absent keys count 0), and sum the absolute frequency
differences over the union of the key sets. -/
def compute_diff (a b : List Char) : Int :=
  Finset.sum ((stripWs a).toFinset ∪ (stripWs b).toFinset)
    (fun k => |((stripWs a).count k : Int) - ((stripWs b).count k : Int)|)

/-- Modelled from the spec's words (reference definition for the refinement
claim about `compute_diff`): "remove all whitespace from both strings; build a
character-frequency mapping for each; the distance is the sum, over the union
of characters appearing in either string, of the absolute difference between
the two frequencies."  The frequency mapping is the function
`fun c => (stripped list).count c`, total with value 0 off its support. -/
def referenceDistance (a b : List Char) : Int :=
  let freqA : Char → Nat := fun c => (stripWs a).count c
  let freqB : Char → Nat := fun c => (stripWs b).count c
  Finset.sum ((stripWs a).toFinset ∪ (stripWs b).toFinset)
    (fun k => |(freqA k : Int) - (freqB k : Int)|)

/-- Python's `request.split("|")` (an explicit separator: empty segments are
kept, the empty string splits to `[""]`). -/
def pySplit (sep : Char) : List Char → List (List Char)
  | [] => [[]]
  | c :: cs =>
    if c = sep then [] :: pySplit sep cs
    else
      match pySplit sep cs with
      | [] => [[c]]
      | s :: ss => (c :: s) :: ss

/-- Python's substring test `needle in hay`. -/
def containsSub (needle : List Char) : List Char → Bool
  | [] => needle.isEmpty
  | c :: t => needle.isPrefixOf (c :: t) || containsSub needle t

/-- A Python exception.  `collab n` is an error raised inside a collaborator
call (the tag distinguishes concrete errors in tests); `attr` is the
`AttributeError` the matching loop would raise on a null entity slot. -/
inductive PyError where
  | collab (n : Nat)
  | attr
deriving DecidableEq

/-- The observable fields of a `SongObject` used by query_parser.py:
`song_name` (display name), `file_name` (dedup identity key),
`youtube_link` / `_youtube_link` (resolved audio link, `none` when pending),
and the lyrics text. -/
structure SongObject where
  song_name : List Char
  file_name : List Char
  youtube_link : Option (List Char)
  lyrics : List Char
deriving DecidableEq

/-- One entry of `ytm_provider.get_metadata_for_playlist`: a candidate with a
`title` and a `videoId`. -/
structure YtmEntry where
  title : List Char
  videoId : List Char
deriving DecidableEq

/-- The part of `metadata_provider.from_url`'s raw track metadata that
`get_youtube_meta_track` reads: the track name and the contributing artist
names (the raw album/artist dictionaries are passed through opaquely). -/
structure TrackMeta where
  name : List Char
  artists : List (List Char)
deriving DecidableEq

/-- The `print` lines the analysed properties refer to. -/
inductive LogEvent where
  /-- Report "Incorrect format used, please use ...URL|SpotifyURL". -/
  | incorrectFormat
  /-- Report "Can not find download links from Youtube Music for the url". -/
  | noCandidates (url : List Char)
  /-- Report "Best match between Spotify and YTM are not identical", with
  both titles and the score. -/
  | mismatch (spotifyTitle ytmTitle : List Char) (score : Int)
  /-- Report of the caught search-branch exception via `print(e)`. -/
  | caughtError (e : PyError)
  /-- Report "Gathering Spotify Metadata for" the url. -/
  | gatheringMeta (url : List Char)
  /-- Report "Skipping" a file name "as already downloaded". -/
  | skippingDownloaded (fileName : List Char)
deriving DecidableEq

/-- The external collaborator calls made by query_parser.py, as abstract
interfaces (spec §6).  Bulk fetches may contain null slots (already
materialized entries), hence `Option SongObject` elements. -/
structure Collaborators where
  /-- Call `SongObject.create_file_name(name, artist_names)`. -/
  create_file_name : List Char → List (List Char) → List Char
  /-- Call `metadata_provider.from_url(spotify_url)`. -/
  metadata_from_url : List Char → Except PyError TrackMeta
  /-- Call `provider_utils._get_song_lyrics(name, artists)` (best-effort). -/
  get_song_lyrics : List Char → List (List Char) → List Char
  /-- Probe whether the target file for a file name already exists. -/
  is_file : List Char → Bool
  /-- Call `song_gatherer.from_spotify_url(request, format, use_youtube)`. -/
  from_spotify_url : List Char → Bool → Except PyError SongObject
  /-- Call `song_gatherer.from_album(url, format, use_youtube, m3u, threads,
  skip_youtube)`. -/
  from_album : List Char → Bool → Bool → Except PyError (List (Option SongObject))
  /-- Call `song_gatherer.from_playlist(url, format, use_youtube, m3u, threads)`. -/
  from_playlist : List Char → Bool → Except PyError (List (Option SongObject))
  /-- Call `song_gatherer.from_artist(url, format, use_youtube, threads)`. -/
  from_artist : List Char → Bool → Except PyError (List (Option SongObject))
  /-- Call `song_gatherer.from_saved_tracks(format, use_youtube, threads)`. -/
  from_saved_tracks : Bool → Except PyError (List (Option SongObject))
  /-- Call `song_gatherer.from_search_term(request, format, use_youtube)`. -/
  from_search_term : List Char → Bool → Except PyError (List (Option SongObject))
  /-- Call `ytm_provider.get_metadata_for_playlist(youtube_url)`. -/
  get_metadata_for_playlist : List Char → Except PyError (List YtmEntry)

/-- The eight mutually exclusive request kinds of the `if`/`elif` chain of
`parse_request` (query_parser.py:53-121). -/
inductive ClassificationResult where
  | pairedTrackURLs
  | pairedPlaylistURLs
  | singleTrack
  | album
  | playlist
  | artist
  | savedLibrary
  | searchTerm
deriving DecidableEq

/-- Condition of the first branch (query_parser.py:53-58). -/
def hasPairedTrackPattern (request : List Char) : Bool :=
  containsSub "youtube.com/watch?v=".data request
    && containsSub "open.spotify.com".data request
    && containsSub "track".data request
    && containsSub "|".data request

/-- Condition of the second branch (query_parser.py:70-74). -/
def hasPairedPlaylistPattern (request : List Char) : Bool :=
  containsSub "music.youtube.com/playlist?list=".data request
    && containsSub "open.spotify.com".data request
    && containsSub "|".data request

/-- Condition of the third branch (query_parser.py:88). -/
def hasSingleTrackPattern (request : List Char) : Bool :=
  containsSub "open.spotify.com".data request && containsSub "track".data request

/-- The guard shared by both paired branches (query_parser.py:61,77):
`len(urls) <= 1 or "youtube" not in urls[0] or "spotify" not in urls[1]`. -/
def malformedPair (urls : List (List Char)) : Bool :=
  urls.length ≤ 1
    || !containsSub "youtube".data (urls.getD 0 [])
    || !containsSub "spotify".data (urls.getD 1 [])

/-- The branch selector of `parse_request`'s `if`/`elif` chain, in source
order (first match wins).  A pure total function: classification is
deterministic by construction. -/
def classify (request : List Char) : ClassificationResult :=
  if hasPairedTrackPattern request then .pairedTrackURLs
  else if hasPairedPlaylistPattern request then .pairedPlaylistURLs
  else if hasSingleTrackPattern request then .singleTrack
  else if containsSub "open.spotify.com".data request
          && containsSub "album".data request then .album
  else if containsSub "open.spotify.com".data request
          && containsSub "playlist".data request then .playlist
  else if containsSub "open.spotify.com".data request
          && containsSub "artist".data request then .artist
  else if request = "saved".data then .savedLibrary
  else .searchTerm

/-- Model of `get_youtube_meta_track` (query_parser.py:128-164): fetch the catalog
metadata for `spotify_url`, derive the file name, return `none` when the
target file is already materialized, otherwise build the `SongObject` with
the caller-supplied `youtube_url` as its audio link and best-effort lyrics.
No exception raised by `metadata_provider.from_url` is caught here. -/
def get_youtube_meta_track (C : Collaborators) (youtube_url spotify_url : List Char) :
    Except PyError (Option SongObject × List LogEvent) :=
  match C.metadata_from_url spotify_url with
  | .error e => .error e
  | .ok meta =>
    let song_name := meta.name
    let contributing_artist := meta.artists
    let converted_file_name := C.create_file_name song_name meta.artists
    if C.is_file converted_file_name then
      .ok (none, [.gatheringMeta spotify_url, .skippingDownloaded converted_file_name])
    else
      let lyrics := C.get_song_lyrics song_name contributing_artist
      .ok (some { song_name := song_name
                  file_name := converted_file_name
                  youtube_link := some youtube_url
                  lyrics := lyrics },
           [.gatheringMeta spotify_url])

/-- Left-to-right scan implementing `min(diff_scores)` where
`diff_scores = [(compute_diff(t, yt), idx, yt) for idx, yt in enumerate(..)]`
(query_parser.py:200-203).  Python's `min` over those tuples is lexicographic
and keeps the leftmost minimum; the indices are strictly increasing, so the
title component is never compared, and the scan that replaces the accumulator
exactly when the new score is strictly smaller computes the same tuple. -/
def bestAux (t : List Char) : Nat → (Int × Nat × YtmEntry) → List YtmEntry → Int × Nat × YtmEntry
  | _, acc, [] => acc
  | i, acc, e :: rest =>
    let s := compute_diff t e.title
    bestAux t (i + 1) (if s < acc.1 then (s, i, e) else acc) rest

/-- Model of `best_match = min(diff_scores)`: `none` exactly on an empty candidate
list (in the source that `min` call is guarded by the emptiness check). -/
def bestMatch (t : List Char) : List YtmEntry → Option (Int × Nat × YtmEntry)
  | [] => none
  | e :: rest => some (bestAux t 1 (compute_diff t e.title, 0, e) rest)

/-- The YouTube watch-URL prefix used at query_parser.py:210. -/
def watchUrlOf (videoId : List Char) : List Char :=
  "https://www.youtube.com/watch?v=".data ++ videoId

/-- One iteration of the matching loop (query_parser.py:198-213): pick the
best candidate for `song.song_name`, print the mismatch warning when the
winning score is nonzero, and set `song._youtube_link` from
`ytm_metadata[best_idx]["videoId"]`. -/
def matchOne (ytm_metadata : List YtmEntry) (song : SongObject) :
    SongObject × List LogEvent :=
  match bestMatch song.song_name ytm_metadata with
  | none => (song, [])
  | some (diff_score, best_idx, yt_entry) =>
    let warn : List LogEvent :=
      if diff_score = 0 then []
      else [.mismatch song.song_name yt_entry.title diff_score]
    ({ song with
        youtube_link := some (watchUrlOf ((ytm_metadata.getD best_idx ⟨[], []⟩).videoId)) },
     warn)

/-- Null slots make the matching loop attribute accesses raise; recover
the all-present list when there is no such slot. -/
def allSome : List (Option SongObject) → Option (List SongObject)
  | [] => some []
  | none :: _ => none
  | some s :: rest => (allSome rest).map (fun l => s :: l)

/-- Model of `get_youtube_meta_playlist` (query_parser.py:167-215): fetch the
playlist's entities from the catalog through `song_gatherer.from_album` with
`use_youtube=False` and `skip_youtube=True`, fetch the candidate titles from
YouTube Music, return `[]` (with the report) when there are no candidates,
otherwise run the matching loop over every fetched entity.  Nothing is caught
here: collaborator errors propagate, and a null entity slot would raise
`AttributeError` in the loop. -/
def get_youtube_meta_playlist (C : Collaborators) (youtube_url spotify_url : List Char) :
    Except PyError (List SongObject × List LogEvent) :=
  match C.from_album spotify_url false true with
  | .error e => .error e
  | .ok song_list_raw =>
    match C.get_metadata_for_playlist youtube_url with
    | .error e => .error e
    | .ok ytm_metadata =>
      if (ytm_metadata.map (·.title)).isEmpty then
        .ok ([], [.noCandidates youtube_url])
      else
        match allSome song_list_raw with
        | none => .error .attr
        | some song_list =>
          let matched := song_list.map (matchOne ytm_metadata)
          .ok (matched.map Prod.fst, (matched.map Prod.snd).flatten)

/-- Model of `parse_request` (query_parser.py:45-125).  Each branch produces the
`song_list` value standing at line 122 (an `Option`-valued list: the bulk
branches can hold null placeholders), and the final result applies the
line-123 `None` filter.  Only the search branch has an exception handler;
the single-track branch's `try` surrounds just the `song.youtube_link`
attribute access, which cannot raise once `from_spotify_url` has returned. -/
def parse_request (C : Collaborators) (request : List Char) (use_youtube : Bool) :
    Except PyError (List SongObject × List LogEvent) :=
  match classify request with
  | .pairedTrackURLs =>
    let urls := pySplit '|' request
    if malformedPair urls then
      .ok ([], [.incorrectFormat])
    else
      match get_youtube_meta_track C (urls.getD 0 []) (urls.getD 1 []) with
      | .error e => .error e
      | .ok (osong, lg) => .ok ((osong.toList.map some).filterMap id, lg)
  | .pairedPlaylistURLs =>
    let urls := pySplit '|' request
    if malformedPair urls then
      .ok ([], [.incorrectFormat])
    else
      match get_youtube_meta_playlist C (urls.getD 0 []) (urls.getD 1 []) with
      | .error e => .error e
      | .ok (l, lg) => .ok ((l.map some).filterMap id, lg)
  | .singleTrack =>
    match C.from_spotify_url request use_youtube with
    | .error e => .error e
    | .ok song =>
      .ok (((if song.youtube_link.isSome then [song] else []).map some).filterMap id, [])
  | .album =>
    match C.from_album request use_youtube false with
    | .error e => .error e
    | .ok l => .ok (l.filterMap id, [])
  | .playlist =>
    match C.from_playlist request use_youtube with
    | .error e => .error e
    | .ok l => .ok (l.filterMap id, [])
  | .artist =>
    match C.from_artist request use_youtube with
    | .error e => .error e
    | .ok l => .ok (l.filterMap id, [])
  | .savedLibrary =>
    match C.from_saved_tracks use_youtube with
    | .error e => .error e
    | .ok l => .ok (l.filterMap id, [])
  | .searchTerm =>
    match C.from_search_term request use_youtube with
    | .error e => .ok ([], [.caughtError e])
    | .ok l => .ok (l.filterMap id, [])

/-- The accumulation loop of `parse_query` (query_parser.py:23-32): skip
tracking-file artifacts, dispatch every other request, and concatenate the
per-query results (and their output) in encounter order.  An uncaught
exception from `parse_request` aborts the whole loop. -/
def gather (C : Collaborators) (use_youtube : Bool) :
    List (List Char) → Except PyError (List SongObject × List LogEvent)
  | [] => .ok ([], [])
  | request :: rest =>
    if List.isSuffixOf ".spotdlTrackingFile".data request then
      gather C use_youtube rest
    else
      match parse_request C request use_youtube with
      | .error e => .error e
      | .ok (l, lg) =>
        match gather C use_youtube rest with
        | .error e => .error e
        | .ok (l2, lg2) => .ok (l ++ l2, lg ++ lg2)

/-- The dedup loop of `parse_query` (query_parser.py:34-41): the `seen_songs`
set is modelled as the list of keys inserted so far (only membership is ever
consulted). -/
def dedupLoop (seen : List (List Char)) : List SongObject → List SongObject
  | [] => []
  | song :: rest =>
    if song.file_name ∈ seen then dedupLoop seen rest
    else song :: dedupLoop (song.file_name :: seen) rest

/-- Model of `parse_query` (query_parser.py:13-42): gather all per-request results,
then remove duplicates by `file_name`. -/
def parse_query (C : Collaborators) (query : List (List Char)) (use_youtube : Bool) :
    Except PyError (List SongObject × List LogEvent) :=
  match gather C use_youtube query with
  | .error e => .error e
  | .ok (songs_list, lg) => .ok (dedupLoop [] songs_list, lg)

/-- Modelled from the spec's words (reference definition for the dedup
refinement claim): "first occurrence of a given key is kept, subsequent
occurrences dropped, overall relative order preserved". -/
def firstOccDedup : List SongObject → List SongObject
  | [] => []
  | x :: xs => x :: firstOccDedup (xs.filter (fun y => y.file_name != x.file_name))
termination_by l => l.length
decreasing_by
  simp only [List.length_cons]
  exact Nat.lt_succ_of_le (List.length_filter_le _ _)

/-! ### Helper lemmas -/

theorem pySplit_len_pos (sep : Char) (l : List Char) : 1 ≤ (pySplit sep l).length := by
  induction l with
  | nil => simp [pySplit]
  | cons c cs ih =>
    rw [pySplit]
    split
    · simp
    · split
      · simp
      · simp

theorem pySplit_len_ge_two (sep : Char) (l : List Char) (h : sep ∈ l) :
    2 ≤ (pySplit sep l).length := by
  induction l with
  | nil => simp at h
  | cons c cs ih =>
    rw [pySplit]
    by_cases hc : c = sep
    · rw [if_pos hc]
      have := pySplit_len_pos sep cs
      simp only [List.length_cons]
      omega
    · rw [if_neg hc]
      have hmem : sep ∈ cs := by
        rcases List.mem_cons.mp h with h1 | h2
        · exact absurd h1.symm hc
        · exact h2
      have h2 := ih hmem
      cases hh : pySplit sep cs with
      | nil => have := pySplit_len_pos sep cs; rw [hh] at this; simp at this
      | cons a b =>
        rw [hh] at h2
        simpa using h2

theorem mem_of_containsSub_singleton (c : Char) (l : List Char)
    (h : containsSub [c] l = true) : c ∈ l := by
  induction l with
  | nil => simp [containsSub, List.isEmpty] at h
  | cons a t ih =>
    rw [containsSub, Bool.or_eq_true] at h
    rcases h with h | h
    · simp only [List.isPrefixOf, Bool.and_eq_true, beq_iff_eq] at h
      exact List.mem_cons.mpr (Or.inl h.1)
    · exact List.mem_cons.mpr (Or.inr (ih h))

theorem compute_diff_nonneg (a b : List Char) : 0 ≤ compute_diff a b :=
  Finset.sum_nonneg (fun _ _ => abs_nonneg _)

theorem compute_diff_comm (a b : List Char) : compute_diff a b = compute_diff b a := by
  unfold compute_diff
  rw [Finset.union_comm]
  exact Finset.sum_congr rfl (fun k _ => abs_sub_comm _ _)

theorem count_eq_of_compute_diff_zero (a b : List Char) (h : compute_diff a b = 0) :
    ∀ k, (stripWs a).count k = (stripWs b).count k := by
  intro k
  have hsum := (Finset.sum_eq_zero_iff_of_nonneg
    (fun (i : Char) _ =>
      abs_nonneg ((((stripWs a).count i : Int)) - ((stripWs b).count i : Int)))).mp h
  by_cases hk : k ∈ (stripWs a).toFinset ∪ (stripWs b).toFinset
  · have h1 := hsum k hk
    have h2 : ((stripWs a).count k : Int) = ((stripWs b).count k : Int) := by
      have h3 := abs_eq_zero.mp h1
      omega
    exact_mod_cast h2
  · rw [Finset.mem_union, List.mem_toFinset, List.mem_toFinset] at hk
    push_neg at hk
    rw [List.count_eq_zero.mpr hk.1, List.count_eq_zero.mpr hk.2]

theorem compute_diff_eq_zero_iff (a b : List Char) :
    compute_diff a b = 0 ↔ (stripWs a : Multiset Char) = (stripWs b : Multiset Char) := by
  constructor
  · intro h
    ext k
    rw [Multiset.coe_count, Multiset.coe_count]
    exact count_eq_of_compute_diff_zero a b h k
  · intro h
    have hc : ∀ k, (stripWs a).count k = (stripWs b).count k := by
      intro k
      have h1 := congrArg (Multiset.count k) h
      rwa [Multiset.coe_count, Multiset.coe_count] at h1
    unfold compute_diff
    apply Finset.sum_eq_zero
    intro k _
    rw [hc k]
    simp

/-- The minimizing-scan invariant: after processing the first `n` candidates
of `L`, the accumulator holds the diff score and index of the leftmost
candidate with minimal score among them, together with that candidate. -/
def BestInv (t : List Char) (L : List YtmEntry) (n : Nat) (acc : Int × Nat × YtmEntry) : Prop :=
  acc.2.1 < n ∧ L[acc.2.1]? = some acc.2.2 ∧ acc.1 = compute_diff t acc.2.2.title ∧
  (∀ k e, k < n → L[k]? = some e → acc.1 ≤ compute_diff t e.title) ∧
  (∀ k e, k < acc.2.1 → L[k]? = some e → acc.1 < compute_diff t e.title)

theorem bestAux_inv (t : List Char) (L : List YtmEntry) :
    ∀ (rest : List YtmEntry) (i : Nat) (acc : Int × Nat × YtmEntry),
      i ≤ L.length → L.drop i = rest → BestInv t L i acc →
      BestInv t L L.length (bestAux t i acc rest) := by
  intro rest
  induction rest with
  | nil =>
    intro i acc hle hdrop hinv
    have h1 : L.length ≤ i := List.drop_eq_nil_iff.mp hdrop
    have h2 : i = L.length := le_antisymm hle h1
    subst h2
    simpa [bestAux] using hinv
  | cons e rest ih =>
    intro i acc hle hdrop hinv
    obtain ⟨s0, i0, e0⟩ := acc
    have hi : i < L.length := by
      by_contra hcon
      push_neg at hcon
      rw [List.drop_eq_nil_iff.mpr hcon] at hdrop
      exact List.noConfusion hdrop
    have hLi : L[i]? = some e := by
      have h0 : (L.drop i)[0]? = some e := by rw [hdrop]; simp
      rwa [List.getElem?_drop, Nat.add_zero] at h0
    have hdrop' : L.drop (i + 1) = rest := by
      have h1 := congrArg List.tail hdrop
      rw [← List.drop_one, List.drop_drop] at h1
      simpa [Nat.add_comm] using h1
    obtain ⟨ha1, ha2, ha3, ha4, ha5⟩ := hinv
    simp only at ha1 ha2 ha3 ha4 ha5
    rw [bestAux]
    apply ih (i + 1) _ hi hdrop'
    by_cases hlt : compute_diff t e.title < s0
    · rw [if_pos hlt]
      refine ⟨Nat.lt_succ_self i, by simpa using hLi, rfl, ?_, ?_⟩
      · intro k e' hk hke
        simp only
        rcases Nat.lt_succ_iff_lt_or_eq.mp hk with h | h
        · exact le_trans (le_of_lt hlt) (ha4 k e' h hke)
        · subst h
          rw [hLi] at hke
          injection hke with hke
          subst hke
          exact le_refl _
      · intro k e' hk hke
        simp only at hk ⊢
        exact lt_of_lt_of_le hlt (ha4 k e' hk hke)
    · rw [if_neg hlt]
      push_neg at hlt
      refine ⟨Nat.lt_succ_of_lt ha1, ha2, ha3, ?_, ha5⟩
      intro k e' hk hke
      simp only
      rcases Nat.lt_succ_iff_lt_or_eq.mp hk with h | h
      · exact ha4 k e' h hke
      · subst h
        rw [hLi] at hke
        injection hke with hke
        subst hke
        exact hlt

theorem bestMatch_spec (t : List Char) (L : List YtmEntry) (h : L ≠ []) :
    ∃ s i e, bestMatch t L = some (s, i, e) ∧ BestInv t L L.length (s, i, e) := by
  match L, h with
  | e :: rest, _ =>
    have hinv : BestInv t (e :: rest) 1 (compute_diff t e.title, 0, e) := by
      refine ⟨Nat.zero_lt_one, by simp, rfl, ?_, ?_⟩
      · intro k e' hk hke
        interval_cases k
        simp only [List.getElem?_cons_zero] at hke
        injection hke with hke
        subst hke
        exact le_refl _
      · intro k e' hk
        simp only at hk
        omega
    have hfin := bestAux_inv t (e :: rest) rest 1 (compute_diff t e.title, 0, e)
      (by simp) (by simp) hinv
    exact ⟨_, _, _, rfl, hfin⟩

theorem dedupLoop_eq_firstOccDedup_aux :
    ∀ (l : List SongObject) (seen : List (List Char)),
      dedupLoop seen l = firstOccDedup (l.filter (fun y => decide (y.file_name ∉ seen))) := by
  intro l
  induction l with
  | nil => intro seen; simp [dedupLoop, firstOccDedup]
  | cons s rest ih =>
    intro seen
    by_cases hmem : s.file_name ∈ seen
    · rw [dedupLoop, if_pos hmem]
      rw [List.filter_cons]
      simp only [hmem, not_true_eq_false, decide_False, ite_false]
      exact ih seen
    · rw [dedupLoop, if_neg hmem]
      rw [List.filter_cons]
      simp only [hmem, not_false_eq_true, decide_True, ite_true]
      rw [show ∀ x xs, firstOccDedup (x :: xs) =
            x :: firstOccDedup (xs.filter (fun y => y.file_name != x.file_name)) from
          fun x xs => by rw [firstOccDedup.eq_def], List.filter_filter]
      rw [ih (s.file_name :: seen)]
      congr 1
      congr 1
      apply List.filter_congr
      intro y _
      by_cases h1 : y.file_name = s.file_name <;>
        by_cases h2 : y.file_name ∈ seen <;>
          simp [h1, h2, bne]

theorem dedupLoop_eq_firstOccDedup (l : List SongObject) :
    dedupLoop [] l = firstOccDedup l := by
  rw [dedupLoop_eq_firstOccDedup_aux l []]
  congr 1
  apply List.filter_eq_self.mpr
  intro y _
  simp

theorem filterMap_id_map_some {α : Type} (l : List α) :
    (l.map some).filterMap id = l := by
  induction l with
  | nil => rfl
  | cons x xs ih => simp [ih]

theorem dedupLoop_sublist : ∀ (l : List SongObject) (seen : List (List Char)),
    (dedupLoop seen l).Sublist l := by
  intro l
  induction l with
  | nil => intro seen; simp [dedupLoop]
  | cons s rest ih =>
    intro seen
    rw [dedupLoop]
    split
    · exact List.Sublist.cons s (ih seen)
    · exact List.Sublist.cons₂ s (ih (s.file_name :: seen))

/-! ### Concrete fixtures used by witnesses and counterexamples -/

/-- A minimal song entity with the given name, also used as its file name. -/
def mkSong (name : List Char) : SongObject :=
  { song_name := name, file_name := name, youtube_link := none, lyrics := [] }

/-- Baseline collaborator behaviour: every call succeeds with a small fixed
value. -/
def collabBase : Collaborators where
  create_file_name := fun n _ => n
  metadata_from_url := fun _ => .ok { name := "m".data, artists := [] }
  get_song_lyrics := fun _ _ => []
  is_file := fun _ => false
  from_spotify_url := fun _ _ =>
    .ok { song_name := "s".data, file_name := "fs".data
          youtube_link := some "l".data, lyrics := [] }
  from_album := fun _ _ _ => .ok []
  from_playlist := fun _ _ => .ok []
  from_artist := fun _ _ => .ok []
  from_saved_tracks := fun _ => .ok []
  from_search_term := fun _ _ => .ok []
  get_metadata_for_playlist := fun _ => .ok []

/-- Collaborators whose album bulk fetch raises. -/
def collabAlbumErr : Collaborators :=
  { collabBase with from_album := fun _ _ _ => .error (.collab 7) }

/-- Collaborators whose search raises. -/
def collabSearchErr : Collaborators :=
  { collabBase with from_search_term := fun _ _ => .error (.collab 3) }

/-- Collaborators distinguishing the playlist pathway (nonempty) from the
album pathway (empty), with one audio-source candidate available. -/
def collabPathways : Collaborators :=
  { collabBase with
      from_playlist := fun _ _ => .ok [some (mkSong "a".data)]
      get_metadata_for_playlist := fun _ => .ok [{ title := "t".data, videoId := "v".data }] }

/-- Collaborators for the empty-candidate paired-playlist scenario: the
catalog returns one entity, the audio source returns no candidates. -/
def collabNoCandidates : Collaborators :=
  { collabBase with
      from_album := fun _ _ _ => .ok [some (mkSong "a".data)]
      get_metadata_for_playlist := fun _ => .ok [] }

/-- Collaborators for the matcher-driven paired-playlist scenario. -/
def collabMatched : Collaborators :=
  { collabBase with
      from_album := fun _ _ _ => .ok [some (mkSong "a".data)]
      get_metadata_for_playlist := fun _ =>
        .ok [{ title := "b".data, videoId := "v1".data },
             { title := "a".data, videoId := "v2".data }] }

/-! ### Claim theorems -/

/-- **C3**: `compute_diff` coincides with the reference bag-of-characters
distance (strip whitespace, frequency maps, sum of absolute differences over
the union of key sets); it is non-negative; and it is zero exactly when the
two whitespace-stripped strings have the same character multiset. -/
theorem compute_diff_matches_reference :
    (∀ a b, compute_diff a b = referenceDistance a b) ∧
    (∀ a b, 0 ≤ compute_diff a b) ∧
    (∀ a b, compute_diff a b = 0 ↔
      (stripWs a : Multiset Char) = (stripWs b : Multiset Char)) :=
  ⟨fun _ _ => rfl, compute_diff_nonneg, compute_diff_eq_zero_iff⟩

/-- **C8**: the string-similarity distance is symmetric, zero on equal
strings, zero on strings differing only in whitespace, and zero on anagrams
(`"abc"` vs `"bca"`). -/
theorem compute_diff_algebraic :
    (∀ a b, compute_diff a b = compute_diff b a) ∧
    (∀ a, compute_diff a a = 0) ∧
    (∀ a b, stripWs a = stripWs b → compute_diff a b = 0) ∧
    compute_diff "abc".data "bca".data = 0 := by
  refine ⟨compute_diff_comm, ?_, ?_, by decide⟩
  · intro a
    exact (compute_diff_eq_zero_iff a a).mpr rfl
  · intro a b h
    exact (compute_diff_eq_zero_iff a b).mpr (by rw [h])

/-- Witness for the whitespace-only conjunct of `compute_diff_algebraic`. -/
theorem compute_diff_algebraic_witness :
    compute_diff "a  b".data "ab".data = 0 :=
  compute_diff_algebraic.2.2.1 "a  b".data "ab".data (by decide)

/-- **C6**: `parse_query` deduplicates the concatenated per-query results by
file name, keeping the first occurrence of each key and preserving encounter
order (a stable dedup: the output is a sublist of the input); file names
`[A, B, A, C]` yield `[A, B, C]`. -/
theorem parse_query_dedups_first_occurrence :
    (∀ (C : Collaborators) (u : Bool) (q : List (List Char)),
      parse_query C q u =
        Except.map (fun p => (firstOccDedup p.1, p.2)) (gather C u q)) ∧
    (∀ l, (dedupLoop [] l).Sublist l) ∧
    dedupLoop [] [mkSong "A".data, mkSong "B".data, mkSong "A".data, mkSong "C".data]
      = [mkSong "A".data, mkSong "B".data, mkSong "C".data] := by
  refine ⟨?_, fun l => dedupLoop_sublist l [], by decide⟩
  intro C u q
  rw [parse_query]
  cases h : gather C u q with
  | error e => rfl
  | ok p =>
    obtain ⟨l, lg⟩ := p
    simp [Except.map, dedupLoop_eq_firstOccDedup]

/-- **C10**: in both paired branches the guard guarantees a pipe occurs in
the request, so `request.split("|")` has at least two segments and the
`len(urls) <= 1` arm of the malformed-request condition is unreachable: the
report can only fire because an ordering marker (`"youtube"` in segment 0,
`"spotify"` in segment 1) is absent. -/
theorem paired_split_two_segments :
    ∀ r, (hasPairedTrackPattern r = true ∨ hasPairedPlaylistPattern r = true) →
      2 ≤ (pySplit '|' r).length ∧
      (malformedPair (pySplit '|' r) = true ↔
        (containsSub "youtube".data ((pySplit '|' r).getD 0 []) = false ∨
         containsSub "spotify".data ((pySplit '|' r).getD 1 []) = false)) := by
  intro r h
  have hpipe : containsSub "|".data r = true := by
    rcases h with h | h
    · unfold hasPairedTrackPattern at h
      simp only [Bool.and_eq_true] at h
      exact h.2
    · unfold hasPairedPlaylistPattern at h
      simp only [Bool.and_eq_true] at h
      exact h.2
  have hmem : '|' ∈ r := mem_of_containsSub_singleton '|' r hpipe
  have hlen : 2 ≤ (pySplit '|' r).length := pySplit_len_ge_two '|' r hmem
  refine ⟨hlen, ?_⟩
  unfold malformedPair
  have hdec : decide ((pySplit '|' r).length ≤ 1) = false := by
    simp only [decide_eq_false_iff_not]
    omega
  rw [hdec]
  cases hy : containsSub "youtube".data ((pySplit '|' r).getD 0 []) <;>
    cases hs : containsSub "spotify".data ((pySplit '|' r).getD 1 []) <;>
      simp

/-- Witness for `paired_split_two_segments` at the paired-track request of
end-to-end scenario 2. -/
theorem paired_split_two_segments_witness :
    2 ≤ (pySplit '|' "youtube.com/watch?v=1|open.spotify.com/track/2".data).length ∧
    (malformedPair (pySplit '|' "youtube.com/watch?v=1|open.spotify.com/track/2".data) = true ↔
      (containsSub "youtube".data
         ((pySplit '|' "youtube.com/watch?v=1|open.spotify.com/track/2".data).getD 0 []) = false ∨
       containsSub "spotify".data
         ((pySplit '|' "youtube.com/watch?v=1|open.spotify.com/track/2".data).getD 1 []) = false)) :=
  paired_split_two_segments _ (Or.inl (by decide))

/-- **C4**: classification is total (every request falls in one of the eight
variants; it is deterministic because `classify` is a pure function), the
branch order is the source order with first match winning — in particular a
request matching both the paired-track pattern and the plain single-track
pattern classifies as `pairedTrackURLs` — and a request matching no rule
falls through to `searchTerm`. -/
theorem classify_priority :
    (∀ r, classify r = .pairedTrackURLs ∨ classify r = .pairedPlaylistURLs ∨
          classify r = .singleTrack ∨ classify r = .album ∨ classify r = .playlist ∨
          classify r = .artist ∨ classify r = .savedLibrary ∨ classify r = .searchTerm) ∧
    (∀ r, hasPairedTrackPattern r = true → hasSingleTrackPattern r = true →
          classify r = .pairedTrackURLs) ∧
    (∀ r, hasPairedTrackPattern r = false → hasPairedPlaylistPattern r = false →
          hasSingleTrackPattern r = false →
          (containsSub "open.spotify.com".data r && containsSub "album".data r) = false →
          (containsSub "open.spotify.com".data r && containsSub "playlist".data r) = false →
          (containsSub "open.spotify.com".data r && containsSub "artist".data r) = false →
          r ≠ "saved".data →
          classify r = .searchTerm) := by
  refine ⟨?_, ?_, ?_⟩
  · intro r
    unfold classify
    repeat' split
    all_goals simp
  · intro r h1 _
    unfold classify
    rw [if_pos h1]
  · intro r h1 h2 h3 h4 h5 h6 h7
    simp [classify, h1, h2, h3, h4, h5, h6, h7]

/-- Witness for `classify_priority`: scenario 2's request matches both
patterns and classifies as `pairedTrackURLs`; a plain search phrase matches
no rule and classifies as `searchTerm`. -/
theorem classify_priority_witness :
    classify "youtube.com/watch?v=1|open.spotify.com/track/2".data
        = ClassificationResult.pairedTrackURLs ∧
    classify "hello world".data = ClassificationResult.searchTerm :=
  ⟨classify_priority.2.1 _ (by decide) (by decide),
   classify_priority.2.2 _ (by decide) (by decide) (by decide) (by decide) (by decide)
     (by decide) (by decide)⟩

/-- The two-candidate fixture used by the matcher witness. -/
def ytmPair : List YtmEntry :=
  [{ title := "b".data, videoId := "v1".data },
   { title := "a".data, videoId := "v2".data }]

/-- **C2**: for every song entity and non-empty candidate list, the matching
loop assigns the candidate minimizing `compute_diff` against the entity's
display name, breaking ties by the lowest candidate index (all strictly
earlier candidates score strictly worse); the entity's audio link is set to
the watch URL built from the matched candidate's `videoId`; and a nonzero
winning distance produces the mismatch warning while the entity is still
resolved.  Determinism across repeated runs is intrinsic: `bestMatch` and
`matchOne` are pure functions. -/
theorem entity_matcher_best_match :
    ∀ (L : List YtmEntry) (song : SongObject), L ≠ [] →
      ∃ (s : Int) (i : Nat) (e : YtmEntry),
        bestMatch song.song_name L = some (s, i, e) ∧
        i < L.length ∧ L[i]? = some e ∧ s = compute_diff song.song_name e.title ∧
        (∀ (j : Nat) (e' : YtmEntry), L[j]? = some e' →
          s ≤ compute_diff song.song_name e'.title) ∧
        (∀ (j : Nat) (e' : YtmEntry), j < i → L[j]? = some e' →
          s < compute_diff song.song_name e'.title) ∧
        (matchOne L song).1 = { song with youtube_link := some (watchUrlOf e.videoId) } ∧
        (s ≠ 0 → (matchOne L song).2 = [.mismatch song.song_name e.title s]) := by
  intro L song hL
  obtain ⟨s, i, e, hbm, hinv⟩ := bestMatch_spec song.song_name L hL
  obtain ⟨h1, h2, h3, h4, h5⟩ := hinv
  simp only at h1 h2 h3 h4 h5
  have hgetD : L.getD i { title := [], videoId := [] } = e := by
    rw [List.getD_eq_getElem?_getD, h2]
    rfl
  refine ⟨s, i, e, hbm, h1, h2, h3, ?_, ?_, ?_, ?_⟩
  · intro j e' hj
    have hjlen : j < L.length := by
      by_contra hcon
      push_neg at hcon
      rw [List.getElem?_eq_none hcon] at hj
      exact Option.noConfusion hj
    exact h4 j e' hjlen hj
  · intro j e' hji hj
    exact h5 j e' hji hj
  · rw [matchOne, hbm]
    simp only [hgetD]
  · intro hs
    rw [matchOne, hbm]
    simp only [if_neg hs]

/-- Witness for `entity_matcher_best_match`: two candidates, the second an
exact match for the song's name. -/
theorem entity_matcher_best_match_witness :
    ∃ (s : Int) (i : Nat) (e : YtmEntry),
      bestMatch (mkSong "a".data).song_name ytmPair = some (s, i, e) ∧
      i < ytmPair.length ∧ ytmPair[i]? = some e ∧
      s = compute_diff (mkSong "a".data).song_name e.title ∧
      (∀ (j : Nat) (e' : YtmEntry), ytmPair[j]? = some e' →
        s ≤ compute_diff (mkSong "a".data).song_name e'.title) ∧
      (∀ (j : Nat) (e' : YtmEntry), j < i → ytmPair[j]? = some e' →
        s < compute_diff (mkSong "a".data).song_name e'.title) ∧
      (matchOne ytmPair (mkSong "a".data)).1 =
        { mkSong "a".data with youtube_link := some (watchUrlOf e.videoId) } ∧
      (s ≠ 0 → (matchOne ytmPair (mkSong "a".data)).2 =
        [.mismatch (mkSong "a".data).song_name e.title s]) :=
  entity_matcher_best_match ytmPair (mkSong "a".data) (by decide)

/-- **C1** (amended): only the search-term branch catches collaborator
errors — a search failure is caught, reported, and yields an empty list —
while an error raised by the catalog single-track fetch or by the album bulk
fetch propagates uncaught out of `parse_request`. -/
theorem dispatch_error_isolation :
    (∀ (C : Collaborators) (r : List Char) (u : Bool) (e : PyError),
      classify r = .searchTerm → C.from_search_term r u = .error e →
      parse_request C r u = .ok ([], [.caughtError e])) ∧
    (∀ (C : Collaborators) (r : List Char) (u : Bool) (e : PyError),
      classify r = .album → C.from_album r u false = .error e →
      parse_request C r u = .error e) ∧
    (∀ (C : Collaborators) (r : List Char) (u : Bool) (e : PyError),
      classify r = .singleTrack → C.from_spotify_url r u = .error e →
      parse_request C r u = .error e) := by
  refine ⟨?_, ?_, ?_⟩ <;>
    · intro C r u e hclass herr
      rw [parse_request, hclass]
      simp only [herr]

/-- Witness for `dispatch_error_isolation`: a failing search on a plain
search term is caught and reported. -/
theorem dispatch_error_isolation_witness :
    parse_request collabSearchErr "hello".data false
      = .ok ([], [.caughtError (.collab 3)]) :=
  dispatch_error_isolation.1 collabSearchErr "hello".data false (.collab 3)
    (by decide) rfl

/-- Counterexample to **C1** as stated: an error raised by the album bulk
fetch is not caught — `parse_request` returns it instead of an empty list,
and it propagates through `parse_query`, aborting the sibling query
`"hello"`. -/
theorem dispatch_error_isolation_counterexample :
    parse_request collabAlbumErr "open.spotify.com/album/x".data false
        = .error (.collab 7) ∧
    parse_query collabAlbumErr ["open.spotify.com/album/x".data, "hello".data] false
        = .error (.collab 7) := by
  constructor <;> rfl

/-- **C9**: for a well-formed paired-track request whose metadata fetch
succeeds and whose target file is not already materialized, the query yields
exactly one entity, and its audio link is exactly the caller-supplied
segment before the pipe — no matching step is involved (the link is copied,
not computed). -/
theorem paired_track_uses_supplied_link :
    ∀ (C : Collaborators) (r : List Char) (u : Bool) (meta : TrackMeta),
      classify r = .pairedTrackURLs →
      malformedPair (pySplit '|' r) = false →
      C.metadata_from_url ((pySplit '|' r).getD 1 []) = .ok meta →
      C.is_file (C.create_file_name meta.name meta.artists) = false →
      ∃ (song : SongObject) (lg : List LogEvent),
        parse_request C r u = .ok ([song], lg) ∧
        song.youtube_link = some ((pySplit '|' r).getD 0 []) := by
  intro C r u meta hclass hform hmeta hfile
  rw [parse_request, hclass]
  simp only [hform, Bool.false_eq_true, if_false]
  rw [get_youtube_meta_track, hmeta]
  simp only [hfile, Bool.false_eq_true, if_false]
  exact ⟨_, _, rfl, rfl⟩

/-- Witness for `paired_track_uses_supplied_link` at end-to-end scenario 2's
request. -/
theorem paired_track_uses_supplied_link_witness :
    ∃ (song : SongObject) (lg : List LogEvent),
      parse_request collabBase "youtube.com/watch?v=1|open.spotify.com/track/2".data false
        = .ok ([song], lg) ∧
      song.youtube_link =
        some ((pySplit '|' "youtube.com/watch?v=1|open.spotify.com/track/2".data).getD 0 []) :=
  paired_track_uses_supplied_link collabBase
    "youtube.com/watch?v=1|open.spotify.com/track/2".data false
    { name := "m".data, artists := [] } (by decide) (by decide) rfl rfl

/-- **C5**: for a well-formed paired-playlist request whose audio-source
candidate list comes back empty, the failure is reported and the query yields
an empty list, regardless of how many entities the catalog returned; nothing
is raised, and the batch loop continues with the sibling queries (their
result is simply prefixed with this query's empty contribution). -/
theorem paired_playlist_no_candidates_soft :
    ∀ (C : Collaborators) (r : List Char) (u : Bool) (rest : List (List Char))
      (songs : List (Option SongObject)),
      classify r = .pairedPlaylistURLs →
      malformedPair (pySplit '|' r) = false →
      C.from_album ((pySplit '|' r).getD 1 []) false true = .ok songs →
      C.get_metadata_for_playlist ((pySplit '|' r).getD 0 []) = .ok [] →
      List.isSuffixOf ".spotdlTrackingFile".data r = false →
      parse_request C r u = .ok ([], [.noCandidates ((pySplit '|' r).getD 0 [])]) ∧
      gather C u (r :: rest) =
        Except.map
          (fun p => (p.1, LogEvent.noCandidates ((pySplit '|' r).getD 0 []) :: p.2))
          (gather C u rest) := by
  intro C r u rest songs hclass hform halb hytm hsuf
  have hreq : parse_request C r u
      = .ok ([], [.noCandidates ((pySplit '|' r).getD 0 [])]) := by
    rw [parse_request, hclass]
    simp only [hform, Bool.false_eq_true, if_false]
    rw [get_youtube_meta_playlist, halb, hytm]
    simp
  refine ⟨hreq, ?_⟩
  rw [gather]
  simp only [hsuf, Bool.false_eq_true, if_false]
  rw [hreq]
  cases h : gather C u rest with
  | error e => rfl
  | ok p =>
    obtain ⟨l2, lg2⟩ := p
    simp [Except.map]

/-- Witness for `paired_playlist_no_candidates_soft`: one catalog entity,
no audio-source candidates, one sibling search query that still runs. -/
theorem paired_playlist_no_candidates_soft_witness :
    parse_request collabNoCandidates
        "music.youtube.com/playlist?list=1|open.spotify.com/playlist/2".data false
      = .ok ([], [.noCandidates
          ((pySplit '|'
            "music.youtube.com/playlist?list=1|open.spotify.com/playlist/2".data).getD 0 [])]) ∧
    gather collabNoCandidates false
        ["music.youtube.com/playlist?list=1|open.spotify.com/playlist/2".data,
         "hello".data] =
      Except.map
        (fun p => (p.1, LogEvent.noCandidates
          ((pySplit '|'
            "music.youtube.com/playlist?list=1|open.spotify.com/playlist/2".data).getD 0 [])
          :: p.2))
        (gather collabNoCandidates false ["hello".data]) :=
  paired_playlist_no_candidates_soft collabNoCandidates
    "music.youtube.com/playlist?list=1|open.spotify.com/playlist/2".data false
    ["hello".data] [some (mkSong "a".data)]
    (by decide) (by decide) rfl rfl (by decide)

/-- **C7** (amended): for a well-formed paired-playlist query the dispatcher
fetches the playlist's entities from the catalog via the **album** bulk-fetch
pathway (`song_gatherer.from_album` on the spotify segment) with
`use_youtube=False` and `skip_youtube=True` (metadata only), fetches the
candidate titles from the audio source for the youtube segment, and — when
the candidates are non-empty — returns the matcher-mutated entities. -/
theorem paired_playlist_album_pathway :
    ∀ (C : Collaborators) (r : List Char) (u : Bool)
      (raw : List (Option SongObject)) (entities : List SongObject)
      (ytm : List YtmEntry),
      classify r = .pairedPlaylistURLs →
      malformedPair (pySplit '|' r) = false →
      C.from_album ((pySplit '|' r).getD 1 []) false true = .ok raw →
      allSome raw = some entities →
      C.get_metadata_for_playlist ((pySplit '|' r).getD 0 []) = .ok ytm →
      ytm ≠ [] →
      parse_request C r u =
        .ok (entities.map (fun s => (matchOne ytm s).1),
             (entities.map (fun s => (matchOne ytm s).2)).flatten) := by
  intro C r u raw entities ytm hclass hform halb hall hytm hne
  rw [parse_request, hclass]
  simp only [hform, Bool.false_eq_true, if_false]
  rw [get_youtube_meta_playlist, halb, hytm]
  have hempty : (ytm.map (·.title)).isEmpty = false := by
    rw [List.isEmpty_eq_false_iff_exists_mem]
    match ytm, hne with
    | e :: rest, _ => exact ⟨e.title, by simp⟩
  simp only [hempty, Bool.false_eq_true, if_false, hall]
  rw [filterMap_id_map_some]
  simp only [List.map_map]
  rfl

/-- Witness for `paired_playlist_album_pathway`: one catalog entity matched
against two candidates. -/
theorem paired_playlist_album_pathway_witness :
    parse_request collabMatched
        "music.youtube.com/playlist?list=1|open.spotify.com/playlist/2".data false =
      .ok ([mkSong "a".data].map (fun s =>
             (matchOne [{ title := "b".data, videoId := "v1".data },
                        { title := "a".data, videoId := "v2".data }] s).1),
           ([mkSong "a".data].map (fun s =>
             (matchOne [{ title := "b".data, videoId := "v1".data },
                        { title := "a".data, videoId := "v2".data }] s).2)).flatten) :=
  paired_playlist_album_pathway collabMatched
    "music.youtube.com/playlist?list=1|open.spotify.com/playlist/2".data false
    [some (mkSong "a".data)] [mkSong "a".data]
    [{ title := "b".data, videoId := "v1".data },
     { title := "a".data, videoId := "v2".data }]
    (by decide) (by decide) rfl rfl rfl (by decide)

/-- Counterexample to **C7** as stated: with collaborators whose *playlist*
bulk fetch returns one entity but whose *album* bulk fetch returns none (and
one audio-source candidate available), a well-formed paired-playlist request
yields the empty list — the result comes from the album pathway, not from
the playlist bulk-fetch pathway, which would have produced one
matcher-mutated entity. -/
theorem paired_playlist_pathway_counterexample :
    parse_request collabPathways
        "music.youtube.com/playlist?list=1|open.spotify.com/playlist/2".data false
      = .ok ([], []) ∧
    collabPathways.from_playlist "open.spotify.com/playlist/2".data false
      = .ok [some (mkSong "a".data)] ∧
    ([mkSong "a".data].map (fun s =>
        (matchOne [{ title := "t".data, videoId := "v".data }] s).1)) ≠ [] := by
  refine ⟨rfl, rfl, by decide⟩
